import Mathlib

/-!
A shallow embedding of `src/dispatchers/frameDispatcher.ts`: the frame
dispatcher of a remote-browser control protocol.  Pure data flow is
transcribed directly from the source; collaborators that live outside the
provided sources (the dispatcher registry, the progress/timeout runner,
the element/request dispatcher constructors and the timeout settings) are
modelled from the specification, and each such definition says so in its
doc comment.
-/

/-- Kinds of underlying browser-side objects a dispatcher node can wrap. -/
inductive UnderlyingKind where
  | frame
  | elementHandle
  | request
  | response
deriving DecidableEq, Repr

/-- An underlying browser-side object (frame, element handle, network
request/response), identified by kind and an id. -/
structure Underlying where
  kind : UnderlyingKind
  uid : Nat
deriving DecidableEq, Repr

/-- A dispatcher node: a wire-addressable proxy wrapping one underlying
object.  `nodeId` is its wire id, `kind` the dispatcher kind. -/
structure DNode where
  nodeId : Nat
  kind : UnderlyingKind
  wraps : Underlying
deriving DecidableEq, Repr

/-- Connection scope: the per-connection registry of live dispatcher
nodes, plus a counter supplying fresh wire ids. -/
structure DispatcherScope where
  nodes : List DNode
  nextId : Nat
deriving DecidableEq, Repr

/-- Modelled from the spec (dispatcher.ts is not among the sources):
`existingDispatcher(underlying)` returns the live node already wrapping
the underlying object in this scope, if any, without creating one. -/
def existingDispatcher (s : DispatcherScope) (u : Underlying) : Option DNode :=
  s.nodes.find? (fun n => n.wraps = u)

/-- Modelled from the spec (dispatcher.ts is not among the sources): the
`Dispatcher` base-class constructor registers the freshly built node in
the scope (and emits its create message); the node gets a fresh id. -/
def registerNode (s : DispatcherScope) (u : Underlying) (k : UnderlyingKind) :
    DNode × DispatcherScope :=
  let n : DNode := { nodeId := s.nextId, kind := k, wraps := u }
  (n, { nodes := s.nodes ++ [n], nextId := s.nextId + 1 })

/-- `FrameDispatcher.from(scope, frame)` (the source's `from`; `from` is a
reserved word in Lean): return the existing dispatcher wrapping the frame,
or construct a new `FrameDispatcher` when none exists. -/
def FrameDispatcher.fromFrame (s : DispatcherScope) (f : Underlying) :
    DNode × DispatcherScope :=
  match existingDispatcher s f with
  | some n => (n, s)
  | none => registerNode s f .frame

/-- Run a sequence of `FrameDispatcher.fromFrame` calls, threading the scope. -/
def runFroms (s : DispatcherScope) (fs : List Underlying) : DispatcherScope :=
  fs.foldl (fun acc g => (FrameDispatcher.fromFrame acc g).2) s

/-- Number of live nodes in the scope wrapping a given underlying object. -/
def countWraps (s : DispatcherScope) (u : Underlying) : Nat :=
  s.nodes.countP (fun n => n.wraps = u)

theorem find?_append_of_some {p : DNode → Bool} {l l' : List DNode} {n : DNode}
    (h : l.find? p = some n) : (l ++ l').find? p = some n := by
  induction l with
  | nil => simp [List.find?] at h
  | cons a t ih =>
    by_cases hp : p a
    · simp [List.find?, hp] at h ⊢; exact h
    · simp only [List.cons_append, List.find?, hp] at h ⊢
      simp only [Bool.false_eq_true, if_false] at *
      exact ih h

theorem existingDispatcher_registerNode_of_some {s : DispatcherScope}
    {u g : Underlying} {k : UnderlyingKind} {n : DNode}
    (h : existingDispatcher s u = some n) :
    existingDispatcher (registerNode s g k).2 u = some n := by
  unfold existingDispatcher registerNode at *
  exact find?_append_of_some h

/-- After `fromFrame`, the returned node is what a lookup of the frame finds. -/
theorem existingDispatcher_fromFrame_self (s : DispatcherScope) (f : Underlying) :
    existingDispatcher (FrameDispatcher.fromFrame s f).2 f =
      some (FrameDispatcher.fromFrame s f).1 := by
  unfold FrameDispatcher.fromFrame
  cases h : existingDispatcher s f with
  | some n => simpa using h
  | none =>
    simp only [registerNode, existingDispatcher] at *
    rw [List.find?_append, h]
    simp [List.find?]

/-- A `fromFrame` call on any frame preserves an existing lookup result. -/
theorem existingDispatcher_fromFrame_preserved (g : Underlying)
    {s : DispatcherScope} {u : Underlying} {n : DNode}
    (h : existingDispatcher s u = some n) :
    existingDispatcher (FrameDispatcher.fromFrame s g).2 u = some n := by
  unfold FrameDispatcher.fromFrame
  cases hg : existingDispatcher s g with
  | some m => simpa using h
  | none => exact existingDispatcher_registerNode_of_some h

/-- A whole sequence of `fromFrame` calls preserves an existing lookup result. -/
theorem existingDispatcher_runFroms_preserved (fs : List Underlying)
    {s : DispatcherScope} {u : Underlying} {n : DNode}
    (h : existingDispatcher s u = some n) :
    existingDispatcher (runFroms s fs) u = some n := by
  induction fs generalizing s with
  | nil => simpa [runFroms]
  | cons g t ih =>
    simp only [runFroms, List.foldl_cons]
    exact ih (existingDispatcher_fromFrame_preserved g h)

/-- A lookup hit makes `fromFrame` return the found node with the scope intact. -/
theorem fromFrame_of_existing {s : DispatcherScope} {f : Underlying} {n : DNode}
    (h : existingDispatcher s f = some n) :
    FrameDispatcher.fromFrame s f = (n, s) := by
  unfold FrameDispatcher.fromFrame
  rw [h]

theorem countWraps_eq_zero_of_find?_none {s : DispatcherScope} {u : Underlying}
    (h : existingDispatcher s u = none) : countWraps s u = 0 := by
  unfold existingDispatcher at h
  rw [List.find?_eq_none] at h
  unfold countWraps
  rw [List.countP_eq_zero]
  exact h

/-- C4: `FrameDispatcher.from` identity-dedup.  (a) After a first call wrapping
frame `f`, every later call on `f` — with arbitrary interleaved calls on other
frames — returns the very node the first call returned, and leaves the scope
unchanged; (b) a lookup hit returns the existing node without constructing, and
a new `FrameDispatcher` is constructed exactly when no live dispatcher wraps the
frame; (c) a call never pushes the number of live nodes wrapping any underlying
object above one (starting from at most one). -/
theorem FrameDispatcher.from_identity_bijection :
    (∀ (s : DispatcherScope) (f : Underlying) (fs : List Underlying),
      FrameDispatcher.fromFrame (runFroms (FrameDispatcher.fromFrame s f).2 fs) f =
        ((FrameDispatcher.fromFrame s f).1,
          runFroms (FrameDispatcher.fromFrame s f).2 fs)) ∧
    (∀ (s : DispatcherScope) (f : Underlying),
      match existingDispatcher s f with
      | some n => FrameDispatcher.fromFrame s f = (n, s)
      | none => FrameDispatcher.fromFrame s f = registerNode s f .frame) ∧
    (∀ (s : DispatcherScope) (f u : Underlying),
      countWraps (FrameDispatcher.fromFrame s f).2 u ≤ max 1 (countWraps s u)) := by
  refine ⟨?_, ?_, ?_⟩
  · intro s f fs
    have h1 := existingDispatcher_fromFrame_self s f
    have h2 := existingDispatcher_runFroms_preserved fs h1
    exact fromFrame_of_existing h2
  · intro s f
    cases h : existingDispatcher s f with
    | some n => simp [FrameDispatcher.fromFrame, h]
    | none => simp [FrameDispatcher.fromFrame, h]
  · intro s f u
    unfold FrameDispatcher.fromFrame
    cases h : existingDispatcher s f with
    | some n => exact le_max_of_le_right (le_refl _)
    | none =>
      have hz : countWraps s f = 0 := countWraps_eq_zero_of_find?_none h
      unfold countWraps registerNode at *
      simp only [List.countP_append, List.countP_cons, List.countP_nil]
      by_cases hu : u = f
      · subst hu
        rw [hz]
        simp
      · have hfu : (decide (f = u)) = false := by
          simp only [decide_eq_false_iff_not]
          exact fun hc => hu hc.symm
        simp only [hfu]
        simp

/-- A JavaScript value slot, distinguishing `undefined` (the field is absent
on the wire) from `null` (a present null) from a string. -/
inductive JSVal where
  | undef
  | null
  | str (s : String)
deriving DecidableEq, Repr

/-- Wire result of `getAttribute`. -/
structure FrameGetAttributeResult where
  value : JSVal
deriving DecidableEq, Repr

/-- Wire result of `textContent`. -/
structure FrameTextContentResult where
  value : JSVal
deriving DecidableEq, Repr

/-- `getAttribute`: the underlying `frame.getAttribute` returns a string or
null (`none` = null); the dispatcher puts `value === null ? undefined : value`
on the wire result. -/
def FrameDispatcher.getAttribute (underlying : Option String) : FrameGetAttributeResult :=
  { value := match underlying with
             | none => .undef
             | some s => .str s }

/-- `textContent`: same null-to-undefined mapping as `getAttribute`. -/
def FrameDispatcher.textContent (underlying : Option String) : FrameTextContentResult :=
  { value := match underlying with
             | none => .undef
             | some s => .str s }

/-- Modelled from the spec (the timeout-settings module is not among the
sources): a page supplies a default action timeout and a default navigation
timeout; a per-call `timeout` param overrides the default for that call only. -/
structure TimeoutSettings where
  defaultTimeout : Nat
  defaultNavigationTimeout : Nat
deriving DecidableEq, Repr

/-- Modelled from the spec: the action-timeout budget for one call. -/
def TimeoutSettings.timeout (ts : TimeoutSettings) (paramsTimeout : Option Nat) : Nat :=
  paramsTimeout.getD ts.defaultTimeout

/-- Modelled from the spec: the navigation-timeout budget for one call. -/
def TimeoutSettings.navigationTimeout (ts : TimeoutSettings) (paramsTimeout : Option Nat) : Nat :=
  paramsTimeout.getD ts.defaultNavigationTimeout

/-- The page owning a frame (`frame._page`): its identity plus its
`_timeoutSettings`. -/
structure Page where
  pid : Nat
  timeoutSettings : TimeoutSettings
deriving DecidableEq, Repr

/-- The incoming `channels.Metadata` argument.  At runtime it is an arbitrary
wire object, so the keys that collide with `ActionMetadata` fields are modelled
explicitly in order to transcribe the JS object spread `{ ...metadata, ... }`
faithfully. -/
structure Metadata where
  type : Option String := none
  target : Option String := none
  value : Option String := none
deriving DecidableEq, Repr

/-- `ActionMetadata` (instrumentation.ts is not among the sources), per the
spec: a `type` from a closed set, optional `target` (selector), optional
`value` (text/url/key), and the owning page. -/
structure ActionMetadata where
  type : String
  target : Option String
  value : Option String
  page : Nat
deriving DecidableEq, Repr

/-- `channels.FrameGotoParams` (the fields the dispatcher reads). -/
structure FrameGotoParams where
  url : String
  timeout : Option Nat := none
deriving DecidableEq, Repr

/-- `channels.FrameSetContentParams` (the fields the dispatcher reads). -/
structure FrameSetContentParams where
  html : String
  timeout : Option Nat := none
deriving DecidableEq, Repr

/-- Stands for the selector-only interactive params channels types
(`FrameClickParams`, `FrameDblclickParams`, `FrameHoverParams`,
`FrameCheckParams`, `FrameUncheckParams`, `FrameSelectOptionParams`,
`FrameSetInputFilesParams`): beyond options irrelevant here they contribute
the selector and the optional timeout. -/
structure FrameSelectorParams where
  selector : String
  timeout : Option Nat := none
deriving DecidableEq, Repr

/-- `channels.FrameFillParams` (the fields the dispatcher reads). -/
structure FrameFillParams where
  selector : String
  value : String
  timeout : Option Nat := none
deriving DecidableEq, Repr

/-- `channels.FrameTypeParams` (the fields the dispatcher reads). -/
structure FrameTypeParams where
  selector : String
  text : String
  timeout : Option Nat := none
deriving DecidableEq, Repr

/-- `channels.FramePressParams` (the fields the dispatcher reads). -/
structure FramePressParams where
  selector : String
  key : String
  timeout : Option Nat := none
deriving DecidableEq, Repr

/-- `goto`: `{ ...metadata, type: 'goto', value: params.url, page }` plus the
budget `page._timeoutSettings.navigationTimeout(params)` handed to the
progress controller. -/
def FrameDispatcher.goto (page : Page) (params : FrameGotoParams) (m : Metadata) :
    ActionMetadata × Nat :=
  ({ type := "goto", target := m.target, value := some params.url, page := page.pid },
   page.timeoutSettings.navigationTimeout params.timeout)

/-- `setContent`: `{ ...metadata, type: 'setContent', value: params.html, page }`
plus the budget `page._timeoutSettings.navigationTimeout(params)`. -/
def FrameDispatcher.setContent (page : Page) (params : FrameSetContentParams) (m : Metadata) :
    ActionMetadata × Nat :=
  ({ type := "setContent", target := m.target, value := some params.html, page := page.pid },
   page.timeoutSettings.navigationTimeout params.timeout)

/-- `click`: `{ ...metadata, type: 'click', target: params.selector, page }`
plus the budget `page._timeoutSettings.timeout(params)` handed to
`runAbortableTask`. -/
def FrameDispatcher.click (page : Page) (params : FrameSelectorParams) (m : Metadata) :
    ActionMetadata × Nat :=
  ({ type := "click", target := some params.selector, value := m.value, page := page.pid },
   page.timeoutSettings.timeout params.timeout)

/-- `dblclick`: same shape as `click` with type `'dblclick'`. -/
def FrameDispatcher.dblclick (page : Page) (params : FrameSelectorParams) (m : Metadata) :
    ActionMetadata × Nat :=
  ({ type := "dblclick", target := some params.selector, value := m.value, page := page.pid },
   page.timeoutSettings.timeout params.timeout)

/-- `fill`: `{ ...metadata, type: 'fill', value: params.value, target: params.selector, page }`. -/
def FrameDispatcher.fill (page : Page) (params : FrameFillParams) (m : Metadata) :
    ActionMetadata × Nat :=
  ({ type := "fill", target := some params.selector, value := some params.value,
     page := page.pid },
   page.timeoutSettings.timeout params.timeout)

/-- `hover`: same shape as `click` with type `'hover'`. -/
def FrameDispatcher.hover (page : Page) (params : FrameSelectorParams) (m : Metadata) :
    ActionMetadata × Nat :=
  ({ type := "hover", target := some params.selector, value := m.value, page := page.pid },
   page.timeoutSettings.timeout params.timeout)

/-- `selectOption`: same shape as `click` with type `'selectOption'`. -/
def FrameDispatcher.selectOption (page : Page) (params : FrameSelectorParams) (m : Metadata) :
    ActionMetadata × Nat :=
  ({ type := "selectOption", target := some params.selector, value := m.value,
     page := page.pid },
   page.timeoutSettings.timeout params.timeout)

/-- `setInputFiles`: same shape as `click` with type `'setInputFiles'`. -/
def FrameDispatcher.setInputFiles (page : Page) (params : FrameSelectorParams) (m : Metadata) :
    ActionMetadata × Nat :=
  ({ type := "setInputFiles", target := some params.selector, value := m.value,
     page := page.pid },
   page.timeoutSettings.timeout params.timeout)

/-- `type`: `{ ...metadata, type: 'type', value: params.text, target: params.selector, page }`. -/
def FrameDispatcher.type (page : Page) (params : FrameTypeParams) (m : Metadata) :
    ActionMetadata × Nat :=
  ({ type := "type", target := some params.selector, value := some params.text,
     page := page.pid },
   page.timeoutSettings.timeout params.timeout)

/-- `press`: `{ ...metadata, type: 'press', value: params.key, target: params.selector, page }`. -/
def FrameDispatcher.press (page : Page) (params : FramePressParams) (m : Metadata) :
    ActionMetadata × Nat :=
  ({ type := "press", target := some params.selector, value := some params.key,
     page := page.pid },
   page.timeoutSettings.timeout params.timeout)

/-- `check`: same shape as `click` with type `'check'`. -/
def FrameDispatcher.check (page : Page) (params : FrameSelectorParams) (m : Metadata) :
    ActionMetadata × Nat :=
  ({ type := "check", target := some params.selector, value := m.value, page := page.pid },
   page.timeoutSettings.timeout params.timeout)

/-- `uncheck`: same shape as `click` with type `'uncheck'`. -/
def FrameDispatcher.uncheck (page : Page) (params : FrameSelectorParams) (m : Metadata) :
    ActionMetadata × Nat :=
  ({ type := "uncheck", target := some params.selector, value := m.value, page := page.pid },
   page.timeoutSettings.timeout params.timeout)

/-- A structured underlying error (carries a message string). -/
structure ErrorObj where
  message : String
deriving DecidableEq, Repr

/-- Outcome of one dispatcher method: success, the underlying error
propagated unchanged, or a Timeout outcome carrying the ActionMetadata. -/
inductive Outcome (α : Type) where
  | ok (a : α)
  | err (e : ErrorObj)
  | timeout (md : ActionMetadata)
deriving DecidableEq, Repr

/-- Modelled from the spec (progress.ts is not among the sources):
`runAbortableTask(work, budget, metadata)` resolves with the work's own
outcome when the work finishes within the budget, and with a Timeout
outcome carrying the metadata when the budget elapses first. -/
def runAbortableTask (work : Except ErrorObj α) (workDuration : Nat) (budget : Nat)
    (md : ActionMetadata) : Outcome α :=
  if budget < workDuration then .timeout md
  else match work with
       | .ok a => .ok a
       | .error e => .err e

/-- Wire result of `content`. -/
structure FrameContentResult where
  value : String
deriving DecidableEq, Repr

/-- Wire result of `title`. -/
structure FrameTitleResult where
  value : String
deriving DecidableEq, Repr

/-- Wire result of `evaluateExpression` (the serialized value the in-page
codec produced, treated as opaque). -/
structure FrameEvaluateExpressionResult where
  value : String
deriving DecidableEq, Repr

/-- `content`: wrap the underlying `frame.content()` result directly; no
progress controller, no metadata, errors propagate unchanged. -/
def FrameDispatcher.content (u : Except ErrorObj String) : Outcome FrameContentResult :=
  match u with
  | .ok v => .ok { value := v }
  | .error e => .err e

/-- `title`: wrap the underlying `frame.title()` result directly. -/
def FrameDispatcher.title (u : Except ErrorObj String) : Outcome FrameTitleResult :=
  match u with
  | .ok v => .ok { value := v }
  | .error e => .err e

/-- `evaluateExpression`: wrap the serialized underlying evaluation result
directly. -/
def FrameDispatcher.evaluateExpression (u : Except ErrorObj String) :
    Outcome FrameEvaluateExpressionResult :=
  match u with
  | .ok v => .ok { value := v }
  | .error e => .err e

/-- Wire result of `querySelector`: the element field is absent when no
element matched. -/
structure FrameQuerySelectorResult where
  element : Option DNode
deriving DecidableEq, Repr

/-- Wire result of `waitForSelector`. -/
structure FrameWaitForSelectorResult where
  element : Option DNode
deriving DecidableEq, Repr

/-- Wire result of `frameElement`. -/
structure FrameFrameElementResult where
  element : DNode
deriving DecidableEq, Repr

/-- Wire result of `querySelectorAll`. -/
structure FrameQuerySelectorAllResult where
  elements : List DNode
deriving DecidableEq, Repr

/-- Wire result of `addScriptTag`. -/
structure FrameAddScriptTagResult where
  element : DNode
deriving DecidableEq, Repr

/-- Wire result of `addStyleTag`. -/
structure FrameAddStyleTagResult where
  element : DNode
deriving DecidableEq, Repr

/-- Modelled from the spec (elementHandlerDispatcher.ts is not among the
sources): `ElementHandleDispatcher.createNullable(scope, handle)` returns an
absent element for a null handle and otherwise wraps the handle in a newly
constructed `ElementHandleDispatcher`, whose construction registers it in the
scope. -/
def ElementHandleDispatcher.createNullable (s : DispatcherScope) (h : Option Underlying) :
    Option DNode × DispatcherScope :=
  match h with
  | none => (none, s)
  | some u =>
    let r := registerNode s u .elementHandle
    (some r.1, r.2)

/-- `querySelector`: run the underlying `frame.$(selector)` (which may fail or
find nothing) and wrap a found handle through
`ElementHandleDispatcher.createNullable`. -/
def FrameDispatcher.querySelector (s : DispatcherScope)
    (u : Except ErrorObj (Option Underlying)) :
    Outcome FrameQuerySelectorResult × DispatcherScope :=
  match u with
  | .error e => (.err e, s)
  | .ok h =>
    let r := ElementHandleDispatcher.createNullable s h
    (.ok { element := r.1 }, r.2)

/-- `waitForSelector`: same wrapping as `querySelector`. -/
def FrameDispatcher.waitForSelector (s : DispatcherScope)
    (u : Except ErrorObj (Option Underlying)) :
    Outcome FrameWaitForSelectorResult × DispatcherScope :=
  match u with
  | .error e => (.err e, s)
  | .ok h =>
    let r := ElementHandleDispatcher.createNullable s h
    (.ok { element := r.1 }, r.2)

/-- `frameElement`: `new ElementHandleDispatcher(scope, await frame.frameElement())`. -/
def FrameDispatcher.frameElement (s : DispatcherScope) (u : Except ErrorObj Underlying) :
    Outcome FrameFrameElementResult × DispatcherScope :=
  match u with
  | .error e => (.err e, s)
  | .ok h =>
    let r := registerNode s h .elementHandle
    (.ok { element := r.1 }, r.2)

/-- `elements.map(e => new ElementHandleDispatcher(this._scope, e))`: each
mapped element handle is wrapped by a fresh constructor call, threading the
scope. -/
def newElementHandles (s : DispatcherScope) : List Underlying → List DNode × DispatcherScope
  | [] => ([], s)
  | h :: t =>
    let r := registerNode s h .elementHandle
    let rest := newElementHandles r.2 t
    (r.1 :: rest.1, rest.2)

/-- `querySelectorAll`: wrap every handle of the underlying `frame.$$` result
in a newly constructed `ElementHandleDispatcher`. -/
def FrameDispatcher.querySelectorAll (s : DispatcherScope) (handles : List Underlying) :
    FrameQuerySelectorAllResult × DispatcherScope :=
  let r := newElementHandles s handles
  ({ elements := r.1 }, r.2)

/-- `addScriptTag`: `new ElementHandleDispatcher(scope, await frame.addScriptTag(params))`. -/
def FrameDispatcher.addScriptTag (s : DispatcherScope) (h : Underlying) :
    FrameAddScriptTagResult × DispatcherScope :=
  let r := registerNode s h .elementHandle
  ({ element := r.1 }, r.2)

/-- `addStyleTag`: `new ElementHandleDispatcher(scope, await frame.addStyleTag(params))`. -/
def FrameDispatcher.addStyleTag (s : DispatcherScope) (h : Underlying) :
    FrameAddStyleTagResult × DispatcherScope :=
  let r := registerNode s h .elementHandle
  ({ element := r.1 }, r.2)

/-- The new-document record carried on a `NavigationEvent` (frames.ts is not
among the sources; modelled from the spec): it references the network object
that initiated the load when one was recorded — the code reads
`event.newDocument.request || null`, so that reference can be absent. -/
structure NewDocumentInfo where
  request : Option Underlying
deriving DecidableEq, Repr

/-- A `NavigationEvent` notification from the underlying frame (frames.ts is
not among the sources; modelled from the spec): a url, an optional name, an
optional error, and — when a new document load began — the new-document
record. -/
structure NavigationEvent where
  url : String
  name : Option String
  error : Option ErrorObj
  newDocument : Option NewDocumentInfo
deriving DecidableEq, Repr

/-- The `newDocument` record embedded in the outward 'navigated' event:
a reference to the initiating request's dispatcher node, absent when the
notification recorded none. -/
structure NewDocumentRef where
  request : Option DNode
deriving DecidableEq, Repr

/-- Params of the outward 'navigated' event. -/
structure NavigatedParams where
  url : String
  name : Option String
  error : Option String
  newDocument : Option NewDocumentRef
deriving DecidableEq, Repr

/-- Modelled from the spec (networkDispatchers.ts is not among the sources):
`RequestDispatcher.from` resolves the object through the Identity Registry,
returning the existing node or creating one if none exists. -/
def RequestDispatcher.fromRequest (s : DispatcherScope) (r : Underlying) :
    DNode × DispatcherScope :=
  match existingDispatcher s r with
  | some n => (n, s)
  | none => registerNode s r .request

/-- Modelled from the spec: `RequestDispatcher.fromNullable` returns an absent
reference for a null object and otherwise defers to `RequestDispatcher.from`. -/
def RequestDispatcher.fromNullable (s : DispatcherScope) (r : Option Underlying) :
    Option DNode × DispatcherScope :=
  match r with
  | none => (none, s)
  | some u =>
    let q := RequestDispatcher.fromRequest s u
    (some q.1, q.2)

/-- The constructor's Navigation handler:
`params = { url, name, error: event.error ? event.error.message : undefined }`,
and when `event.newDocument` is present,
`params.newDocument = { request: RequestDispatcher.fromNullable(scope, event.newDocument.request || null) }`. -/
def handleNavigation (s : DispatcherScope) (e : NavigationEvent) :
    NavigatedParams × DispatcherScope :=
  match e.newDocument with
  | none =>
    ({ url := e.url, name := e.name, error := e.error.map ErrorObj.message,
       newDocument := none }, s)
  | some d =>
    let q := RequestDispatcher.fromNullable s d.request
    ({ url := e.url, name := e.name, error := e.error.map ErrorObj.message,
       newDocument := some { request := q.1 } }, q.2)

/-- A notification emitted by the underlying frame that the constructor
subscribes to. -/
inductive FrameNotification where
  | addLifecycle (ev : String)
  | removeLifecycle (ev : String)
  | navigation (e : NavigationEvent)
deriving DecidableEq, Repr

/-- One outward channel event dispatched by the frame dispatcher. -/
inductive DispatchedEvent where
  | loadstateAdd (ev : String)
  | loadstateRemove (ev : String)
  | navigated (p : NavigatedParams)
deriving DecidableEq, Repr

/-- The constructor-registered handlers: each underlying frame notification is
translated into the outward events it dispatches (threading the scope, which a
navigation with a new document may extend with a request node). -/
def handleNotification (s : DispatcherScope) :
    FrameNotification → List DispatchedEvent × DispatcherScope
  | .addLifecycle ev => ([.loadstateAdd ev], s)
  | .removeLifecycle ev => ([.loadstateRemove ev], s)
  | .navigation e =>
    let r := handleNavigation s e
    ([.navigated r.1], r.2)

/-- Underlying frame state read by the constructor: `frame.url()`,
`frame.name()`, `frame.parentFrame()`, `frame._subtreeLifecycleEvents`. -/
structure FrameState where
  url : String
  name : String
  parentFrame : Option Underlying
  subtreeLifecycleEvents : List String
deriving DecidableEq, Repr

/-- `channels.FrameInitializer` as built by the constructor. -/
structure FrameInitializer where
  url : String
  name : String
  parentFrame : Option DNode
  loadStates : List String
deriving DecidableEq, Repr

/-- Modelled from the spec (dispatcher.ts is not among the sources):
`lookupNullableDispatcher` returns the existing node for the object, or an
absent reference; it creates nothing. -/
def lookupNullableDispatcher (s : DispatcherScope) (u : Option Underlying) : Option DNode :=
  u.bind (existingDispatcher s)

/-- The initializer snapshot the `FrameDispatcher` constructor passes to
`super`: the frame's url and name, the parent frame's dispatcher reference,
and the current subtree lifecycle load states. -/
def mkFrameInitializer (s : DispatcherScope) (f : FrameState) : FrameInitializer :=
  { url := f.url
    name := f.name
    parentFrame := lookupNullableDispatcher s f.parentFrame
    loadStates := f.subtreeLifecycleEvents }

/-- Dispatcher-local state after construction: the snapshot stored at
creation. -/
structure FrameDispatcherSt where
  initializer : FrameInitializer
deriving DecidableEq, Repr

/-- One step of the dispatcher's event loop: a frame notification produces
outward events and may extend the scope (a navigation may create a request
node); the handlers never rewrite the stored initializer. -/
def FrameDispatcherSt.step (d : FrameDispatcherSt) (s : DispatcherScope)
    (n : FrameNotification) :
    FrameDispatcherSt × List DispatchedEvent × DispatcherScope :=
  let r := handleNotification s n
  (d, r.1, r.2)

/-- Process a whole stream of notifications. -/
def FrameDispatcherSt.run (d : FrameDispatcherSt) (s : DispatcherScope) :
    List FrameNotification → FrameDispatcherSt × DispatcherScope
  | [] => (d, s)
  | n :: t =>
    let r := d.step s n
    FrameDispatcherSt.run r.1 r.2.2 t

/-- C1 counterexample: a navigation notification carrying a new document whose
initiating request was not recorded (`event.newDocument.request || null` is
null) emits a 'navigated' event whose newDocument record contains no network
reference, refuting the claim that carrying a new document always embeds one. -/
theorem handleNavigation_newDocument_no_request :
    ({ url := "https://example.test/", name := some "", error := none,
       newDocument := some { request := none } } : NavigationEvent).newDocument.isSome = true ∧
    (handleNavigation { nodes := [], nextId := 0 }
      { url := "https://example.test/", name := some "", error := none,
        newDocument := some { request := none } }).1.newDocument =
      some { request := none } ∧
    ((handleNavigation { nodes := [], nextId := 0 }
      { url := "https://example.test/", name := some "", error := none,
        newDocument := some { request := none } }).1.newDocument.bind
        NewDocumentRef.request) = none := by
  refine ⟨rfl, rfl, rfl⟩

/-- C1 (amended): every Navigation notification produces exactly one outward
'navigated' event; its params carry the notification's url, its name, and an
error field holding the error's message string when an error is present
(absent otherwise).  When the notification carries a new document, the event
embeds a newDocument record whose request reference is resolved through the
Identity Registry — the existing node (scope unchanged) or a newly created,
registered one — when the notification recorded an initiating request, and is
absent when it did not. -/
theorem handleNavigation_navigated_event :
    ∀ (s : DispatcherScope) (e : NavigationEvent),
      (handleNotification s (.navigation e)).1 =
        [.navigated (handleNavigation s e).1] ∧
      (handleNotification s (.navigation e)).2 = (handleNavigation s e).2 ∧
      (handleNavigation s e).1.url = e.url ∧
      (handleNavigation s e).1.name = e.name ∧
      (match e.error with
       | none => (handleNavigation s e).1.error = none
       | some err => (handleNavigation s e).1.error = some err.message) ∧
      (match e.newDocument with
       | none =>
         (handleNavigation s e).1.newDocument = none ∧ (handleNavigation s e).2 = s
       | some d =>
         match d.request with
         | none =>
           (handleNavigation s e).1.newDocument = some { request := none } ∧
           (handleNavigation s e).2 = s
         | some r =>
           match existingDispatcher s r with
           | some n =>
             (handleNavigation s e).1.newDocument = some { request := some n } ∧
             (handleNavigation s e).2 = s
           | none =>
             (handleNavigation s e).1.newDocument =
               some { request := some (registerNode s r .request).1 } ∧
             (handleNavigation s e).2 = (registerNode s r .request).2 ∧
             (registerNode s r .request).1 ∈ (handleNavigation s e).2.nodes) := by
  intro s e
  refine ⟨rfl, rfl, ?_, ?_, ?_, ?_⟩
  · cases hd : e.newDocument <;> simp [handleNavigation, hd]
  · cases hd : e.newDocument <;> simp [handleNavigation, hd]
  · cases he : e.error <;> cases hd : e.newDocument <;>
      simp [handleNavigation, hd, he]
  · cases hd : e.newDocument with
    | none => simp [handleNavigation, hd]
    | some d =>
      cases hr : d.request with
      | none =>
        simp [handleNavigation, hd, hr, RequestDispatcher.fromNullable]
      | some r =>
        cases hx : existingDispatcher s r with
        | some n =>
          simp [handleNavigation, hd, hr, RequestDispatcher.fromNullable,
            RequestDispatcher.fromRequest, hx]
        | none =>
          simp [handleNavigation, hd, hr, RequestDispatcher.fromNullable,
            RequestDispatcher.fromRequest, hx, registerNode]

/-- C2: `goto` and `setContent` follow the shared interactive shape: the
ActionMetadata is built from the method name and params (type `'goto'` /
`'setContent'`, value the url/html, owning page) and the budget handed to the
runner is the page's default navigation timeout unless the per-call timeout
param overrides it for that call. -/
theorem FrameDispatcher.goto_setContent_shape :
    ∀ (page : Page) (gp : FrameGotoParams) (cp : FrameSetContentParams) (m : Metadata),
      (FrameDispatcher.goto page gp m).1.type = "goto" ∧
      (FrameDispatcher.goto page gp m).1.value = some gp.url ∧
      (FrameDispatcher.goto page gp m).1.page = page.pid ∧
      (FrameDispatcher.setContent page cp m).1.type = "setContent" ∧
      (FrameDispatcher.setContent page cp m).1.value = some cp.html ∧
      (FrameDispatcher.setContent page cp m).1.page = page.pid ∧
      (match gp.timeout with
       | none => (FrameDispatcher.goto page gp m).2 =
           page.timeoutSettings.defaultNavigationTimeout
       | some t => (FrameDispatcher.goto page gp m).2 = t) ∧
      (match cp.timeout with
       | none => (FrameDispatcher.setContent page cp m).2 =
           page.timeoutSettings.defaultNavigationTimeout
       | some t => (FrameDispatcher.setContent page cp m).2 = t) := by
  intro page gp cp m
  refine ⟨rfl, rfl, rfl, rfl, rfl, rfl, ?_, ?_⟩
  · cases ht : gp.timeout <;>
      simp [FrameDispatcher.goto, TimeoutSettings.navigationTimeout, ht]
  · cases ht : cp.timeout <;>
      simp [FrameDispatcher.setContent, TimeoutSettings.navigationTimeout, ht]

/-- C3: a null underlying result of `getAttribute`/`textContent` maps to an
absent (`undefined`) wire value field — never to a present null — and a string
result is carried through verbatim. -/
theorem FrameDispatcher.nullable_results_absent_not_null :
    (FrameDispatcher.getAttribute none).value = JSVal.undef ∧
    (∀ s, (FrameDispatcher.getAttribute (some s)).value = JSVal.str s) ∧
    (∀ v, (FrameDispatcher.getAttribute v).value ≠ JSVal.null) ∧
    (FrameDispatcher.textContent none).value = JSVal.undef ∧
    (∀ s, (FrameDispatcher.textContent (some s)).value = JSVal.str s) ∧
    (∀ v, (FrameDispatcher.textContent v).value ≠ JSVal.null) := by
  refine ⟨rfl, fun s => rfl, ?_, rfl, fun s => rfl, ?_⟩ <;>
    exact fun v => by
      cases v <;> simp [FrameDispatcher.getAttribute, FrameDispatcher.textContent]

/-- C5: every selector-based interactive method hands the runner an
ActionMetadata whose type is the method's name and whose target is
`params.selector`; `fill`/`type`/`press` additionally carry the filled
text/typed text/pressed key as value.  Consequently a Timeout outcome of a
click carries metadata identifying the click and its selector. -/
theorem FrameDispatcher.selector_action_metadata :
    ∀ (page : Page) (sp : FrameSelectorParams) (fp : FrameFillParams)
      (tp : FrameTypeParams) (pp : FramePressParams) (m : Metadata),
      (FrameDispatcher.click page sp m).1.type = "click" ∧
      (FrameDispatcher.click page sp m).1.target = some sp.selector ∧
      (FrameDispatcher.dblclick page sp m).1.type = "dblclick" ∧
      (FrameDispatcher.dblclick page sp m).1.target = some sp.selector ∧
      (FrameDispatcher.fill page fp m).1.type = "fill" ∧
      (FrameDispatcher.fill page fp m).1.target = some fp.selector ∧
      (FrameDispatcher.fill page fp m).1.value = some fp.value ∧
      (FrameDispatcher.hover page sp m).1.type = "hover" ∧
      (FrameDispatcher.hover page sp m).1.target = some sp.selector ∧
      (FrameDispatcher.type page tp m).1.type = "type" ∧
      (FrameDispatcher.type page tp m).1.target = some tp.selector ∧
      (FrameDispatcher.type page tp m).1.value = some tp.text ∧
      (FrameDispatcher.press page pp m).1.type = "press" ∧
      (FrameDispatcher.press page pp m).1.target = some pp.selector ∧
      (FrameDispatcher.press page pp m).1.value = some pp.key ∧
      (FrameDispatcher.check page sp m).1.type = "check" ∧
      (FrameDispatcher.check page sp m).1.target = some sp.selector ∧
      (FrameDispatcher.uncheck page sp m).1.type = "uncheck" ∧
      (FrameDispatcher.uncheck page sp m).1.target = some sp.selector ∧
      (FrameDispatcher.selectOption page sp m).1.type = "selectOption" ∧
      (FrameDispatcher.selectOption page sp m).1.target = some sp.selector ∧
      (FrameDispatcher.setInputFiles page sp m).1.type = "setInputFiles" ∧
      (FrameDispatcher.setInputFiles page sp m).1.target = some sp.selector ∧
      (∀ (w : Except ErrorObj Unit) (d : Nat),
        match runAbortableTask w d (FrameDispatcher.click page sp m).2
            (FrameDispatcher.click page sp m).1 with
        | .timeout md => md.type = "click" ∧ md.target = some sp.selector
        | _ => True) := by
  intro page sp fp tp pp m
  and_intros <;> try rfl
  intro w d
  by_cases hb : (FrameDispatcher.click page sp m).2 < d
  · simp only [runAbortableTask, if_pos hb]
    exact ⟨rfl, rfl⟩
  · simp only [runAbortableTask, if_neg hb]
    cases w <;> simp

/-- C6: the non-interactive methods `content`, `title`, `querySelector`,
`evaluateExpression` propagate an underlying failure unchanged and can never
resolve with a Timeout outcome (they run under no progress controller). -/
theorem FrameDispatcher.non_interactive_direct :
    (∀ e, FrameDispatcher.content (.error e) = .err e) ∧
    (∀ v, FrameDispatcher.content (.ok v) = .ok { value := v }) ∧
    (∀ u md, FrameDispatcher.content u ≠ .timeout md) ∧
    (∀ e, FrameDispatcher.title (.error e) = .err e) ∧
    (∀ v, FrameDispatcher.title (.ok v) = .ok { value := v }) ∧
    (∀ u md, FrameDispatcher.title u ≠ .timeout md) ∧
    (∀ e, FrameDispatcher.evaluateExpression (.error e) = .err e) ∧
    (∀ v, FrameDispatcher.evaluateExpression (.ok v) = .ok { value := v }) ∧
    (∀ u md, FrameDispatcher.evaluateExpression u ≠ .timeout md) ∧
    (∀ s e, FrameDispatcher.querySelector s (.error e) = (.err e, s)) ∧
    (∀ s u md, (FrameDispatcher.querySelector s u).1 ≠ .timeout md) := by
  refine ⟨fun e => rfl, fun v => rfl, ?_, fun e => rfl, fun v => rfl, ?_,
    fun e => rfl, fun v => rfl, ?_, fun s e => rfl, ?_⟩
  · intro u md
    cases u <;> simp [FrameDispatcher.content]
  · intro u md
    cases u <;> simp [FrameDispatcher.title]
  · intro u md
    cases u <;> simp [FrameDispatcher.evaluateExpression]
  · intro s u md
    cases u with
    | error e => simp [FrameDispatcher.querySelector]
    | ok h =>
      cases h <;>
        simp [FrameDispatcher.querySelector, ElementHandleDispatcher.createNullable]

/-- C7: when `querySelector`/`waitForSelector`/`frameElement` succeed with a
non-null underlying handle, the returned element is a dispatcher node wrapping
that handle, registered in the scope before the method returns; when
`querySelector`/`waitForSelector` resolve to no element, the element field is
absent and the scope is untouched. -/
theorem FrameDispatcher.handles_registered :
    ∀ (s : DispatcherScope) (h : Underlying),
      (FrameDispatcher.querySelector s (.ok (some h))).1 =
        .ok { element := some (registerNode s h .elementHandle).1 } ∧
      (registerNode s h .elementHandle).1 ∈
        (FrameDispatcher.querySelector s (.ok (some h))).2.nodes ∧
      (registerNode s h .elementHandle).1.wraps = h ∧
      FrameDispatcher.querySelector s (.ok none) = (.ok { element := none }, s) ∧
      (FrameDispatcher.waitForSelector s (.ok (some h))).1 =
        .ok { element := some (registerNode s h .elementHandle).1 } ∧
      (registerNode s h .elementHandle).1 ∈
        (FrameDispatcher.waitForSelector s (.ok (some h))).2.nodes ∧
      FrameDispatcher.waitForSelector s (.ok none) = (.ok { element := none }, s) ∧
      (FrameDispatcher.frameElement s (.ok h)).1 =
        .ok { element := (registerNode s h .elementHandle).1 } ∧
      (registerNode s h .elementHandle).1 ∈
        (FrameDispatcher.frameElement s (.ok h)).2.nodes := by
  intro s h
  refine ⟨rfl, ?_, rfl, rfl, rfl, ?_, rfl, rfl, ?_⟩ <;>
    simp [FrameDispatcher.querySelector, FrameDispatcher.waitForSelector,
      FrameDispatcher.frameElement, ElementHandleDispatcher.createNullable,
      registerNode]

/-- The handlers registered by the constructor never change the dispatcher's
stored state (they only dispatch events and may extend the scope). -/
theorem FrameDispatcherSt.run_fst (d : FrameDispatcherSt) (s : DispatcherScope)
    (ns : List FrameNotification) : (FrameDispatcherSt.run d s ns).1 = d := by
  induction ns generalizing s with
  | nil => rfl
  | cons n t ih =>
    simp only [FrameDispatcherSt.run, FrameDispatcherSt.step]
    exact ih _

/-- C8: the initializer snapshot built at construction captures the frame's
url, name, the parent frame's dispatcher reference (absent when the frame has
no parent) and the frame's current subtree lifecycle load states; the stored
snapshot survives any stream of later frame notifications unchanged. -/
theorem FrameDispatcher.initializer_snapshot :
    ∀ (s : DispatcherScope) (f : FrameState),
      (mkFrameInitializer s f).url = f.url ∧
      (mkFrameInitializer s f).name = f.name ∧
      (mkFrameInitializer s f).loadStates = f.subtreeLifecycleEvents ∧
      (match f.parentFrame with
       | none => (mkFrameInitializer s f).parentFrame = none
       | some p => (mkFrameInitializer s f).parentFrame = existingDispatcher s p) ∧
      (∀ (s' : DispatcherScope) (ns : List FrameNotification),
        (FrameDispatcherSt.run { initializer := mkFrameInitializer s f } s' ns).1.initializer =
          mkFrameInitializer s f) := by
  intro s f
  refine ⟨rfl, rfl, rfl, ?_, ?_⟩
  · cases hp : f.parentFrame <;> simp [mkFrameInitializer, lookupNullableDispatcher, hp]
  · intro s' ns
    rw [FrameDispatcherSt.run_fst]

/-- C9 counterexample: `click` assigns `type`, `target` and `page` after the
spread but not `value`, so a caller-supplied `value` key in the incoming
metadata survives into the ActionMetadata handed to the action runner; two
calls differing only in that incoming key produce different ActionMetadata. -/
theorem FrameDispatcher.click_metadata_value_leak :
    (FrameDispatcher.click
      { pid := 0, timeoutSettings := { defaultTimeout := 30000, defaultNavigationTimeout := 30000 } }
      { selector := "#submit" } { value := some "leaked" }).1.value = some "leaked" ∧
    (FrameDispatcher.click
      { pid := 0, timeoutSettings := { defaultTimeout := 30000, defaultNavigationTimeout := 30000 } }
      { selector := "#submit" } {}).1.value = none ∧
    (FrameDispatcher.click
      { pid := 0, timeoutSettings := { defaultTimeout := 30000, defaultNavigationTimeout := 30000 } }
      { selector := "#submit" } { value := some "leaked" }).1 ≠
    (FrameDispatcher.click
      { pid := 0, timeoutSettings := { defaultTimeout := 30000, defaultNavigationTimeout := 30000 } }
      { selector := "#submit" } {}).1 := by
  refine ⟨rfl, rfl, by decide⟩

/-- C9 (amended): for every interactive method the assigned ActionMetadata
fields are determined solely by the method and its params — `type` and `page`
in all of them, `target` additionally in every selector-based method, `value`
additionally in `goto`, `setContent`, `fill`, `type` and `press` — so two calls
that differ only in the incoming metadata agree on those assigned fields; a
field the method does not assign (`value` in the selector-only methods,
`target` in `goto`/`setContent`) flows through from the incoming metadata
because of the spread. -/
theorem FrameDispatcher.metadata_override_flow :
    ∀ (page : Page) (gp : FrameGotoParams) (cp : FrameSetContentParams)
      (sp : FrameSelectorParams) (fp : FrameFillParams) (tp : FrameTypeParams)
      (pp : FramePressParams) (m₁ m₂ : Metadata),
      (FrameDispatcher.goto page gp m₁).1.type = (FrameDispatcher.goto page gp m₂).1.type ∧
      (FrameDispatcher.goto page gp m₁).1.value = (FrameDispatcher.goto page gp m₂).1.value ∧
      (FrameDispatcher.goto page gp m₁).1.page = (FrameDispatcher.goto page gp m₂).1.page ∧
      (FrameDispatcher.goto page gp m₁).1.target = m₁.target ∧
      (FrameDispatcher.setContent page cp m₁).1.type =
        (FrameDispatcher.setContent page cp m₂).1.type ∧
      (FrameDispatcher.setContent page cp m₁).1.value =
        (FrameDispatcher.setContent page cp m₂).1.value ∧
      (FrameDispatcher.setContent page cp m₁).1.page =
        (FrameDispatcher.setContent page cp m₂).1.page ∧
      (FrameDispatcher.setContent page cp m₁).1.target = m₁.target ∧
      (FrameDispatcher.click page sp m₁).1.type = (FrameDispatcher.click page sp m₂).1.type ∧
      (FrameDispatcher.click page sp m₁).1.target =
        (FrameDispatcher.click page sp m₂).1.target ∧
      (FrameDispatcher.click page sp m₁).1.page = (FrameDispatcher.click page sp m₂).1.page ∧
      (FrameDispatcher.click page sp m₁).1.value = m₁.value ∧
      (FrameDispatcher.dblclick page sp m₁).1.type =
        (FrameDispatcher.dblclick page sp m₂).1.type ∧
      (FrameDispatcher.dblclick page sp m₁).1.target =
        (FrameDispatcher.dblclick page sp m₂).1.target ∧
      (FrameDispatcher.dblclick page sp m₁).1.page =
        (FrameDispatcher.dblclick page sp m₂).1.page ∧
      (FrameDispatcher.dblclick page sp m₁).1.value = m₁.value ∧
      (FrameDispatcher.hover page sp m₁).1.type = (FrameDispatcher.hover page sp m₂).1.type ∧
      (FrameDispatcher.hover page sp m₁).1.target =
        (FrameDispatcher.hover page sp m₂).1.target ∧
      (FrameDispatcher.hover page sp m₁).1.page = (FrameDispatcher.hover page sp m₂).1.page ∧
      (FrameDispatcher.hover page sp m₁).1.value = m₁.value ∧
      (FrameDispatcher.check page sp m₁).1.type = (FrameDispatcher.check page sp m₂).1.type ∧
      (FrameDispatcher.check page sp m₁).1.target =
        (FrameDispatcher.check page sp m₂).1.target ∧
      (FrameDispatcher.check page sp m₁).1.page = (FrameDispatcher.check page sp m₂).1.page ∧
      (FrameDispatcher.check page sp m₁).1.value = m₁.value ∧
      (FrameDispatcher.uncheck page sp m₁).1.type =
        (FrameDispatcher.uncheck page sp m₂).1.type ∧
      (FrameDispatcher.uncheck page sp m₁).1.target =
        (FrameDispatcher.uncheck page sp m₂).1.target ∧
      (FrameDispatcher.uncheck page sp m₁).1.page =
        (FrameDispatcher.uncheck page sp m₂).1.page ∧
      (FrameDispatcher.uncheck page sp m₁).1.value = m₁.value ∧
      (FrameDispatcher.selectOption page sp m₁).1.type =
        (FrameDispatcher.selectOption page sp m₂).1.type ∧
      (FrameDispatcher.selectOption page sp m₁).1.target =
        (FrameDispatcher.selectOption page sp m₂).1.target ∧
      (FrameDispatcher.selectOption page sp m₁).1.page =
        (FrameDispatcher.selectOption page sp m₂).1.page ∧
      (FrameDispatcher.selectOption page sp m₁).1.value = m₁.value ∧
      (FrameDispatcher.setInputFiles page sp m₁).1.type =
        (FrameDispatcher.setInputFiles page sp m₂).1.type ∧
      (FrameDispatcher.setInputFiles page sp m₁).1.target =
        (FrameDispatcher.setInputFiles page sp m₂).1.target ∧
      (FrameDispatcher.setInputFiles page sp m₁).1.page =
        (FrameDispatcher.setInputFiles page sp m₂).1.page ∧
      (FrameDispatcher.setInputFiles page sp m₁).1.value = m₁.value ∧
      (FrameDispatcher.fill page fp m₁).1 = (FrameDispatcher.fill page fp m₂).1 ∧
      (FrameDispatcher.type page tp m₁).1 = (FrameDispatcher.type page tp m₂).1 ∧
      (FrameDispatcher.press page pp m₁).1 = (FrameDispatcher.press page pp m₂).1 := by
  intro page gp cp sp fp tp pp m₁ m₂
  and_intros <;> rfl

/-- The nodes `newElementHandles` constructs depend only on the id counter,
never on which nodes the registry already holds. -/
theorem newElementHandles_fst_independent :
    ∀ (hs : List Underlying) (l₁ l₂ : List DNode) (k : Nat),
      (newElementHandles { nodes := l₁, nextId := k } hs).1 =
        (newElementHandles { nodes := l₂, nextId := k } hs).1 := by
  intro hs
  induction hs with
  | nil => intro l₁ l₂ k; rfl
  | cons x t ih =>
    intro l₁ l₂ k
    simp only [newElementHandles, registerNode]
    exact congrArg (List.cons _) (ih _ _ _)

/-- C10: `querySelectorAll` wraps every element of the underlying result in a
newly constructed `ElementHandleDispatcher`: a handle returned twice yields two
distinct proxy nodes both wrapping it, and the nodes produced do not depend on
which nodes the registry already holds; `addScriptTag` and `addStyleTag`
likewise always construct a fresh node and append it to the scope. -/
theorem FrameDispatcher.always_construct_element_nodes :
    ∀ (s : DispatcherScope) (h : Underlying),
      ((FrameDispatcher.querySelectorAll s [h, h]).1.elements.map DNode.nodeId) =
        [s.nextId, s.nextId + 1] ∧
      ((FrameDispatcher.querySelectorAll s [h, h]).1.elements.map DNode.wraps) = [h, h] ∧
      ((FrameDispatcher.querySelectorAll s [h, h]).1.elements.map DNode.nodeId).Nodup ∧
      (∀ (l₁ l₂ : List DNode) (k : Nat) (hs : List Underlying),
        (FrameDispatcher.querySelectorAll { nodes := l₁, nextId := k } hs).1 =
          (FrameDispatcher.querySelectorAll { nodes := l₂, nextId := k } hs).1) ∧
      (∀ (l₁ l₂ : List DNode) (k : Nat),
        (FrameDispatcher.addScriptTag { nodes := l₁, nextId := k } h).1 =
          (FrameDispatcher.addScriptTag { nodes := l₂, nextId := k } h).1) ∧
      (FrameDispatcher.addScriptTag s h).1.element.nodeId = s.nextId ∧
      (FrameDispatcher.addScriptTag s h).1.element.wraps = h ∧
      (FrameDispatcher.addScriptTag s h).2.nodes =
        s.nodes ++ [(FrameDispatcher.addScriptTag s h).1.element] ∧
      (∀ (l₁ l₂ : List DNode) (k : Nat),
        (FrameDispatcher.addStyleTag { nodes := l₁, nextId := k } h).1 =
          (FrameDispatcher.addStyleTag { nodes := l₂, nextId := k } h).1) ∧
      (FrameDispatcher.addStyleTag s h).1.element.nodeId = s.nextId ∧
      (FrameDispatcher.addStyleTag s h).1.element.wraps = h ∧
      (FrameDispatcher.addStyleTag s h).2.nodes =
        s.nodes ++ [(FrameDispatcher.addStyleTag s h).1.element] := by
  intro s h
  refine ⟨rfl, rfl, ?_, ?_, fun l₁ l₂ k => rfl, rfl, rfl, rfl,
    fun l₁ l₂ k => rfl, rfl, rfl, rfl⟩
  · simp [FrameDispatcher.querySelectorAll, newElementHandles, registerNode]
  · intro l₁ l₂ k hs
    simp only [FrameDispatcher.querySelectorAll]
    exact congrArg FrameQuerySelectorAllResult.mk
      (newElementHandles_fst_independent hs l₁ l₂ k)
